import Mathlib

/-!
Verification of the webhook signature verification and event correlation
logic of the Chainrails demo repository.

The embedded code is the `AppService` of
`server/nestjs-example/src/app/app.service.ts` (the `api/src/app/app.service.ts`
copy is line-for-line identical except for log text and for using the host
language's plain string equality in place of the explicit length check plus
`timingSafeEqual`), together with the webhook HTTP controller
(`handleWebhook`) that parses the timestamp header with `parseInt`.

Modelling conventions:
* JavaScript numbers that hold a parsed timestamp are modelled as
  `Option Int`, with `none` playing the role of `NaN` (the result of
  `parseInt` on an unparseable string).  The embedding reproduces the
  JavaScript comparison semantics of `NaN`: `Math.abs(now - NaN) > 300`
  evaluates to `false`, and `NaN` stringifies to `"NaN"` inside the
  template literal building the signed message.
* The HMAC-SHA256 primitive (`createHmac` from node's `crypto`) and
  `JSON.stringify` are host-library primitives that are not part of this
  repository; the verifier is therefore parametric in an arbitrary
  `hmac : String → String → String` (secret and message to hex digest) and
  `stringify : Payload → String`.  Every theorem below holds for every such
  pair of functions; witnesses instantiate them with concrete stand-ins.
* `Buffer.from` over the (ASCII hex) signature strings is modelled by an
  executable UTF-8 encoder.
* The in-memory `Map<string, any[]>` of webhook events is modelled as a
  total function from keys to `Option` of event lists, with explicit state
  passing; `UnauthorizedException` becomes the `unauthorized` outcome, the
  map being returned unchanged.
* JavaScript truthiness of `payload.data?.intent_address` is modelled
  exactly: a missing field and the empty string are both falsy.
-/

namespace Chainrails

/-- Payload `data` object: the correlation key `intent_address` may be
absent (`payload.data?.intent_address` is optional in the vendor payload). -/
structure PayloadData where
  intent_address : Option String
deriving DecidableEq

/-- Webhook payload body as used by `handleWebhookEvent`: the fields the
code reads (`id`, `type`, `created_at`, `data`); `data` itself may be
absent (the source uses the optional chaining `payload.data?.`). -/
structure Payload where
  id : String
  type : String
  created_at : String
  data : Option PayloadData
deriving DecidableEq

/-- Stored webhook event, as pushed by `handleWebhookEvent`:
`{ id, type, created_at, data, receivedAt: new Date().toISOString() }`. -/
structure WebhookEvent where
  id : String
  type : String
  created_at : String
  data : Option PayloadData
  receivedAt : String
deriving DecidableEq

/-- The in-memory `webhookEvents` map (`Map<string, any[]>`). -/
abbrev EventMap := String → Option (List WebhookEvent)

/-- The empty map (fresh `new Map()`). -/
def emptyMap : EventMap := fun _ => none

/-- `Map.prototype.set`. -/
def mapSet (m : EventMap) (k : String) (v : List WebhookEvent) : EventMap :=
  fun q => if q = k then some v else m q

/-- `this.webhookEvents.get(addr) || []`, the read used both by
`handleWebhookEvent` and by `getTransferStatus`. -/
def getEvents (m : EventMap) (k : String) : List WebhookEvent :=
  (m k).getD []

/-- UTF-8 encoding of one character (what `Buffer.from(string)` does
byte-wise in node). -/
def utf8EncodeChar (c : Char) : List Nat :=
  let n := c.toNat
  if n < 128 then [n]
  else if n < 2048 then
    [192 ||| (n >>> 6), 128 ||| (n &&& 63)]
  else if n < 65536 then
    [224 ||| (n >>> 12), 128 ||| ((n >>> 6) &&& 63), 128 ||| (n &&& 63)]
  else
    [240 ||| (n >>> 18), 128 ||| ((n >>> 12) &&& 63),
      128 ||| ((n >>> 6) &&& 63), 128 ||| (n &&& 63)]

/-- The byte content of `Buffer.from(s)`. -/
def utf8Bytes (s : String) : List Nat :=
  (s.toList.map utf8EncodeChar).flatten

/-- Constant-time comparison loop: one pass over the zipped byte lists,
updating an accumulator and a step counter at every position, never
exiting early.  Models `crypto.timingSafeEqual` (which always processes
every byte) together with an explicit count of the byte comparisons
performed, so that data-independence of the running time is statable. -/
def ctCmpFold : List Nat → List Nat → Bool → Nat → Bool × Nat
  | a :: as, b :: bs, acc, n => ctCmpFold as bs (acc && (a == b)) (n + 1)
  | _, _, acc, n => (acc, n)

/-- `crypto.timingSafeEqual(a, b)` on equal-length buffers. -/
def timingSafeEqual (a b : List Nat) : Bool :=
  (ctCmpFold a b true 0).1

/-- Number of byte comparisons `timingSafeEqual` performs. -/
def timingSafeEqualSteps (a b : List Nat) : Nat :=
  (ctCmpFold a b true 0).2

/-- Step 3 of `verifyWebhookSignature` in
`server/nestjs-example/src/app/app.service.ts` (lines 287-302): convert
both signature strings to buffers, return `false` without invoking
`timingSafeEqual` when the byte lengths differ, otherwise compare with
`timingSafeEqual`. -/
def safeCompare (receivedSignature computedSignature : String) : Bool :=
  let rb := utf8Bytes receivedSignature
  let cb := utf8Bytes computedSignature
  if rb.length = cb.length then timingSafeEqual rb cb else false

/-- Number of byte comparisons the signature comparison performs: zero when
the lengths differ (the length guard returns before the loop), otherwise
the loop's step count. -/
def safeCompareSteps (receivedSignature computedSignature : String) : Nat :=
  let rb := utf8Bytes receivedSignature
  let cb := utf8Bytes computedSignature
  if rb.length = cb.length then timingSafeEqualSteps rb cb else 0

/-- Warning logged when `CHAINRAILS_WEBHOOK_SECRET` is not set. -/
def noSecretWarn : String :=
  "CHAINRAILS_WEBHOOK_SECRET not set. Skipping signature verification."

/-- Warning logged when the timestamp is outside the replay window. -/
def staleWarn : String :=
  "Webhook timestamp too old."

/-- Stringification of the timestamp inside the template literal
building the signed message; `NaN` (modelled as `none`) prints as
the three characters N a N. -/
def tsToString (timestamp : Option Int) : String :=
  match timestamp with
  | some t => toString t
  | none => (['N', 'a', 'N'] : List Char).asString

/-- The replay-window test of the source, JavaScript semantics included:
`Math.abs(now - timestamp) > 300` is `false` when `timestamp` is `NaN`
(every comparison with `NaN` is `false`), and the ordinary absolute
difference test otherwise. -/
def timestampTooOld (timestamp : Option Int) (now : Int) : Bool :=
  match timestamp with
  | some t => (now - t).natAbs > 300
  | none => false

/-- `verifyWebhookSignature` of
`server/nestjs-example/src/app/app.service.ts` (lines 249-303), returning
the verdict together with the list of warnings logged during the call.
If the secret is unset or empty (`!webhookSecret`), log a warning and
accept; otherwise reject when the timestamp fails the replay-window test,
and otherwise compare the received signature against
`sha256=` followed by the hex HMAC-SHA256 of `<timestamp>.<stringified
payload>` under the secret. -/
def verifyWebhookSignature (hmac : String → String → String)
    (stringify : Payload → String) (secret : Option String)
    (payload : Payload) (receivedSignature : String)
    (timestamp : Option Int) (now : Int) : Bool × List String :=
  match secret with
  | none => (true, [noSecretWarn])
  | some s =>
    if s = "" then (true, [noSecretWarn])
    else if timestampTooOld timestamp now then (false, [staleWarn])
    else
      let signedPayload := tsToString timestamp ++ "." ++ stringify payload
      let computed := "sha256=" ++ hmac s signedPayload
      (safeCompare receivedSignature computed, [])

/-- Result object returned by `handleWebhookEvent` on success:
`{ received: true, eventId, eventType, intentAddress }`. -/
structure HandleResult where
  received : Bool
  eventId : String
  eventType : String
  intentAddress : Option String
deriving DecidableEq

/-- Outcome of `handleWebhookEvent`: either the thrown
`UnauthorizedException` or the returned result object. -/
inductive HandleOutcome where
  | unauthorized : HandleOutcome
  | accepted : HandleResult → HandleOutcome
deriving DecidableEq

/-- The event object pushed onto the log for the correlation address. -/
def mkEvent (p : Payload) (receivedAt : String) : WebhookEvent :=
  { id := p.id, type := p.type, created_at := p.created_at,
    data := p.data, receivedAt := receivedAt }

/-- The correlation key read by `handleWebhookEvent`:
`payload.data?.intent_address`. -/
def intentAddressOf (p : Payload) : Option String :=
  p.data.bind PayloadData.intent_address

/-- JavaScript truthiness of the extracted `intentAddress`: `undefined`
and the empty string are falsy. -/
def addrTruthy (a : Option String) : Bool :=
  match a with
  | none => false
  | some s => !(s = "")

/-- `handleWebhookEvent` of
`server/nestjs-example/src/app/app.service.ts` (lines 200-230), in
state-passing style: verify the signature, throw `UnauthorizedException`
(leaving the map untouched) when invalid; otherwise, when the payload
carries a truthy `data.intent_address`, append the event to that address's
log (creating it when absent) and return the result object.  The third
component collects the warnings the call logged. -/
def handleWebhookEvent (hmac : String → String → String)
    (stringify : Payload → String) (secret : Option String)
    (m : EventMap) (payload : Payload) (signature : String)
    (timestamp : Option Int) (now : Int) (receivedAt : String) :
    HandleOutcome × EventMap × List String :=
  let v := verifyWebhookSignature hmac stringify secret payload signature timestamp now
  if v.1 then
    let addr := intentAddressOf payload
    let m2 :=
      match addr with
      | some a =>
        if a = "" then m
        else mapSet m a (getEvents m a ++ [mkEvent payload receivedAt])
      | none => m
    (HandleOutcome.accepted
      { received := true, eventId := payload.id,
        eventType := payload.type, intentAddress := addr }, m2, v.2)
  else (HandleOutcome.unauthorized, m, v.2)

/-- JavaScript `parseInt(s, 10)` restricted to what the code relies on:
skip leading whitespace, read an optional sign and then the longest run of
leading decimal digits; `none` (that is, `NaN`) when no digit is found. -/
def parseIntJS (s : String) : Option Int :=
  let l := s.toList.dropWhile fun c => c = ' ' || c = '\t' || c = '\n' || c = '\r'
  match l with
  | '-' :: rest =>
    let ds := rest.takeWhile Char.isDigit
    if ds.isEmpty then none
    else some (-(Int.ofNat (ds.asString.toNat!)))
  | '+' :: rest =>
    let ds := rest.takeWhile Char.isDigit
    if ds.isEmpty then none
    else some (Int.ofNat (ds.asString.toNat!))
  | _ =>
    let ds := l.takeWhile Char.isDigit
    if ds.isEmpty then none
    else some (Int.ofNat (ds.asString.toNat!))

/-- The webhook HTTP controller `handleWebhook` (POST /app/webhook):
convert the timestamp header with `parseInt(timestamp, 10)` — a missing
header, like an unparseable one, yields `NaN` — and delegate to
`handleWebhookEvent`. -/
def handleWebhook (hmac : String → String → String)
    (stringify : Payload → String) (secret : Option String)
    (m : EventMap) (payload : Payload) (signature : String)
    (tsHeader : Option String) (now : Int) (receivedAt : String) :
    HandleOutcome × EventMap × List String :=
  let timestampNumber :=
    match tsHeader with
    | some s => parseIntJS s
    | none => none
  handleWebhookEvent hmac stringify secret m payload signature
    timestampNumber now receivedAt

/-- The webhook-storage effect of `createTransfer` (line 132 of both
app services): `this.webhookEvents.set(intent.intent_address, [])` —
an unconditional `set` of the empty list. -/
def recordTransferCreated (m : EventMap) (intentAddress : String) : EventMap :=
  mapSet m intentAddress []

/-! Concrete stand-ins for the host-library primitives (`createHmac` /
`JSON.stringify` live in node, not in this repository; every theorem below
is parametric in them) and concrete inputs used by the witnesses. -/

/-- Concrete stand-in for the hex HMAC-SHA256 digest function, used only
to instantiate the parametric theorems on concrete inputs. -/
def hmacDemo : String → String → String :=
  fun s msg => s ++ msg

/-- Concrete stand-in for `JSON.stringify`, used only to instantiate the
parametric theorems on concrete inputs. -/
def stringifyDemo : Payload → String :=
  fun p => p.id ++ p.type

/-- A concrete webhook secret. -/
def secretDemo : String := "shh-demo-secret"

/-- A concrete intent (correlation) address. -/
def addrDemo : String := "0xabc123"

/-- A concrete correlation address different from `addrDemo`. -/
def otherAddrDemo : String := "0xother"

/-- A concrete payload carrying a correlation address. -/
def payloadDemo : Payload :=
  { id := "evt_1", type := "intent_funded", created_at := "2026-01-01",
    data := some { intent_address := some addrDemo } }

/-- A concrete payload whose `data` carries no `intent_address`. -/
def payloadNoAddr : Payload :=
  { id := "evt_2", type := "intent_funded", created_at := "2026-01-01",
    data := some { intent_address := none } }

/-- A concrete locally assigned receipt time. -/
def recvDemo : String := "2026-01-01T00:00:00.000Z"

/-- A second receipt time, for the redelivery scenario. -/
def recvDemo2 : String := "2026-01-01T00:00:01.000Z"

/-- A signature that verifies `payloadDemo` at timestamp 700 under
`secretDemo` and `hmacDemo`. -/
def sigDemo700 : String :=
  "sha256=" ++ hmacDemo secretDemo (toString (700 : Int) ++ "." ++ stringifyDemo payloadDemo)

/-- A signature that verifies `payloadDemo` at timestamp 701 under
`secretDemo` and `hmacDemo`. -/
def sigDemo701 : String :=
  "sha256=" ++ hmacDemo secretDemo (toString (701 : Int) ++ "." ++ stringifyDemo payloadDemo)

/-- A signature that verifies `payloadNoAddr` at timestamp 700 under
`secretDemo` and `hmacDemo`. -/
def sigNoAddr700 : String :=
  "sha256=" ++ hmacDemo secretDemo (toString (700 : Int) ++ "." ++ stringifyDemo payloadNoAddr)

/-- The signature the verifier ends up expecting when the timestamp is
`NaN`: the HMAC of the string `NaN.<stringified payload>`. -/
def sigDemoNaN : String :=
  "sha256=" ++ hmacDemo secretDemo (tsToString none ++ "." ++ stringifyDemo payloadDemo)

/-- An arbitrary signature header value that matches nothing. -/
def sigDemoBad : String := "sha256=bogus"

/-- A timestamp header value on which `parseInt` yields `NaN`. -/
def tsHeaderGarbage : String := "not-a-number"

/-- The map state after the first `createTransfer` for `addrDemo`. -/
def overwriteStep1 : EventMap := recordTransferCreated emptyMap addrDemo

/-- The map state after a verified webhook for `addrDemo` was recorded on
top of `overwriteStep1`. -/
def overwriteStep2 : EventMap :=
  (handleWebhookEvent hmacDemo stringifyDemo (some secretDemo) overwriteStep1
    payloadDemo sigDemo700 (some 700) 1000 recvDemo).2.1

/-- The map state after a second `createTransfer` yielding the same
`addrDemo` (the source runs `webhookEvents.set(intent.intent_address, [])`
unconditionally). -/
def overwriteStep3 : EventMap := recordTransferCreated overwriteStep2 addrDemo

/-! Helper lemmas about the event map. -/

/-- Reading a key right after setting it. -/
theorem getEvents_mapSet_self (m : EventMap) (a : String) (v : List WebhookEvent) :
    getEvents (mapSet m a v) a = v := by
  simp [getEvents, mapSet]

/-- Setting one key leaves every other key unchanged. -/
theorem mapSet_other (m : EventMap) (a : String) (v : List WebhookEvent)
    (k : String) (h : k ≠ a) : mapSet m a v k = m k := by
  simp [mapSet, h]

/-! Helper lemmas about the constant-time comparison loop. -/

/-- The step counter of the comparison loop depends only on the lengths of
the two byte lists, never on their contents. -/
theorem ctCmpFold_steps (a : List Nat) : ∀ (b : List Nat) (acc : Bool) (n : Nat),
    (ctCmpFold a b acc n).2 = n + min a.length b.length := by
  induction a with
  | nil => intro b acc n; cases b <;> simp [ctCmpFold]
  | cons x xs ih =>
    intro b acc n
    cases b with
    | nil => simp [ctCmpFold]
    | cons y ys =>
      simp only [ctCmpFold, ih, List.length_cons]
      omega

/-- On equal-length lists the comparison loop computes equality of the
lists (conjoined with the incoming accumulator). -/
theorem ctCmpFold_fst (a : List Nat) : ∀ (b : List Nat) (acc : Bool),
    a.length = b.length → ∀ n : Nat,
    ((ctCmpFold a b acc n).1 = true ↔ acc = true ∧ a = b) := by
  induction a with
  | nil =>
    intro b acc hlen n
    cases b with
    | nil => simp [ctCmpFold]
    | cons y ys => simp at hlen
  | cons x xs ih =>
    intro b acc hlen n
    cases b with
    | nil => simp at hlen
    | cons y ys =>
      simp only [List.length_cons, Nat.add_right_cancel_iff] at hlen
      simp only [ctCmpFold]
      rw [ih ys (acc && (x == y)) hlen (n + 1)]
      simp only [Bool.and_eq_true, beq_iff_eq, List.cons.injEq]
      tauto

/-- Reflexivity of the safe comparison. -/
theorem safeCompare_self (s : String) : safeCompare s s = true := by
  simp only [safeCompare, timingSafeEqual, if_pos rfl]
  exact (ctCmpFold_fst (utf8Bytes s) (utf8Bytes s) true rfl 0).2 ⟨rfl, rfl⟩

/-- C4: the signature comparison returns `false` without performing a
single byte comparison whenever the two signature strings differ in byte
length; on equal-length buffers it performs exactly one comparison step
per byte — a count that depends only on the length, never on the position
of the first differing byte — and decides equality of the byte buffers. -/
theorem signature_compare_constant_time (r c r2 c2 : String)
    (hne : (utf8Bytes r).length ≠ (utf8Bytes c).length)
    (heq : (utf8Bytes r2).length = (utf8Bytes c2).length) :
    safeCompare r c = false ∧ safeCompareSteps r c = 0 ∧
    safeCompareSteps r2 c2 = (utf8Bytes r2).length ∧
    (safeCompare r2 c2 = true ↔ utf8Bytes r2 = utf8Bytes c2) := by
  refine ⟨?_, ?_, ?_, ?_⟩
  · simp [safeCompare, hne]
  · simp [safeCompareSteps, hne]
  · simp [safeCompareSteps, heq, timingSafeEqualSteps, ctCmpFold_steps]
  · simp only [safeCompare, heq, if_pos, timingSafeEqual]
    rw [ctCmpFold_fst (utf8Bytes r2) (utf8Bytes c2) true heq 0]
    simp

/-- Witness for C4 at concrete signature strings of unequal and of equal
byte lengths. -/
theorem signature_compare_constant_time_witness :
    safeCompare sigDemoBad sigDemo700 = false ∧
    safeCompareSteps sigDemoBad sigDemo700 = 0 ∧
    safeCompareSteps sigDemo700 sigDemo701 = (utf8Bytes sigDemo700).length ∧
    (safeCompare sigDemo700 sigDemo701 = true ↔
      utf8Bytes sigDemo700 = utf8Bytes sigDemo701) :=
  signature_compare_constant_time sigDemoBad sigDemo700 sigDemo700 sigDemo701
    (by decide) (by decide)

/-- C7: whenever signature verification fails — for any reason: timestamp
parsing, freshness, or signature mismatch — `handleWebhookEvent` reports
the `Unauthorized` rejection and returns the event-log map exactly as it
was: no entry appended to any key and no key created. -/
theorem rejected_webhook_records_nothing
    (hmac : String → String → String) (stringify : Payload → String)
    (secret : Option String) (m : EventMap) (payload : Payload)
    (sig : String) (ts : Option Int) (now : Int) (receivedAt : String)
    (h : (verifyWebhookSignature hmac stringify secret payload sig ts now).1 = false) :
    handleWebhookEvent hmac stringify secret m payload sig ts now receivedAt =
      (HandleOutcome.unauthorized, m,
        (verifyWebhookSignature hmac stringify secret payload sig ts now).2) := by
  simp [handleWebhookEvent, h]

/-- Witness for C7: a mismatched signature under a configured secret is
rejected and the (empty) map is returned untouched. -/
theorem rejected_webhook_records_nothing_witness :
    handleWebhookEvent hmacDemo stringifyDemo (some secretDemo) emptyMap
        payloadDemo sigDemoBad (some 700) 1000 recvDemo =
      (HandleOutcome.unauthorized, emptyMap,
        (verifyWebhookSignature hmacDemo stringifyDemo (some secretDemo)
          payloadDemo sigDemoBad (some 700) 1000).2) :=
  rejected_webhook_records_nothing hmacDemo stringifyDemo (some secretDemo)
    emptyMap payloadDemo sigDemoBad (some 700) 1000 recvDemo (by decide)

/-- C1: with a secret configured, a delivery whose timestamp is within
300 seconds of now and whose signature header is exactly `sha256=`
followed by the hex HMAC of `<timestamp>.<stringified payload>` under
that secret is accepted, and the event is appended exactly once, at the
end (FIFO position) of the log for the payload's `data.intent_address`,
with no warnings logged. -/
theorem verified_webhook_appended_once
    (hmac : String → String → String) (stringify : Payload → String)
    (s : String) (payload : Payload) (t now : Int) (m : EventMap)
    (a receivedAt sig : String)
    (hs : s ≠ "")
    (hfresh : (now - t).natAbs ≤ 300)
    (ha : intentAddressOf payload = some a) (ha2 : a ≠ "")
    (hsig : sig = "sha256=" ++ hmac s (toString t ++ "." ++ stringify payload)) :
    handleWebhookEvent hmac stringify (some s) m payload sig (some t) now receivedAt =
      (HandleOutcome.accepted
        { received := true, eventId := payload.id,
          eventType := payload.type, intentAddress := some a },
        mapSet m a (getEvents m a ++ [mkEvent payload receivedAt]), []) ∧
    getEvents (handleWebhookEvent hmac stringify (some s) m payload sig
        (some t) now receivedAt).2.1 a
      = getEvents m a ++ [mkEvent payload receivedAt] := by
  subst hsig
  have hto : timestampTooOld (some t) now = false := by
    simp only [timestampTooOld, decide_eq_false_iff_not, Nat.not_lt]
    omega
  have hv : verifyWebhookSignature hmac stringify (some s) payload
      ("sha256=" ++ hmac s (toString t ++ "." ++ stringify payload))
      (some t) now = (true, []) := by
    simp [verifyWebhookSignature, hs, hto, tsToString, safeCompare_self]
  refine ⟨?_, ?_⟩ <;>
    simp [handleWebhookEvent, hv, ha, ha2, getEvents_mapSet_self]

/-- Witness for C1: a correctly signed, fresh delivery for `payloadDemo`
lands exactly once in the log for `addrDemo`. -/
theorem verified_webhook_appended_once_witness :
    handleWebhookEvent hmacDemo stringifyDemo (some secretDemo) emptyMap
        payloadDemo sigDemo700 (some 700) 1000 recvDemo =
      (HandleOutcome.accepted
        { received := true, eventId := payloadDemo.id,
          eventType := payloadDemo.type, intentAddress := some addrDemo },
        mapSet emptyMap addrDemo
          (getEvents emptyMap addrDemo ++ [mkEvent payloadDemo recvDemo]), []) ∧
    getEvents (handleWebhookEvent hmacDemo stringifyDemo (some secretDemo)
        emptyMap payloadDemo sigDemo700 (some 700) 1000 recvDemo).2.1 addrDemo
      = getEvents emptyMap addrDemo ++ [mkEvent payloadDemo recvDemo] :=
  verified_webhook_appended_once hmacDemo stringifyDemo secretDemo payloadDemo
    700 1000 emptyMap addrDemo recvDemo sigDemo700
    (by decide) (by decide) (by decide) (by decide) (by decide)

/-- C3: with a secret configured, a delivery whose timestamp differs from
now by more than 300 seconds is rejected as stale whatever the signature;
a delivery within the window — the boundary 300 included, since the test
is a strict `> 300` — with a valid signature is accepted. -/
theorem replay_window_boundary
    (hmac : String → String → String) (stringify : Payload → String)
    (s : String) (payload : Payload) (t now : Int) (m : EventMap)
    (sig receivedAt : String) (hs : s ≠ "") :
    ((now - t).natAbs > 300 →
      handleWebhookEvent hmac stringify (some s) m payload sig (some t) now receivedAt =
        (HandleOutcome.unauthorized, m, [staleWarn])) ∧
    ((now - t).natAbs ≤ 300 →
      sig = "sha256=" ++ hmac s (toString t ++ "." ++ stringify payload) →
      (handleWebhookEvent hmac stringify (some s) m payload sig
          (some t) now receivedAt).1 =
        HandleOutcome.accepted
          { received := true, eventId := payload.id,
            eventType := payload.type, intentAddress := intentAddressOf payload }) := by
  constructor
  · intro hstale
    have hto : timestampTooOld (some t) now = true := by
      simp only [timestampTooOld, decide_eq_true_eq]
      omega
    simp [handleWebhookEvent, verifyWebhookSignature, hs, hto]
  · intro hfresh hsig
    subst hsig
    have hto : timestampTooOld (some t) now = false := by
      simp only [timestampTooOld, decide_eq_false_iff_not, Nat.not_lt]
      omega
    have hv : verifyWebhookSignature hmac stringify (some s) payload
        ("sha256=" ++ hmac s (toString t ++ "." ++ stringify payload))
        (some t) now = (true, []) := by
      simp [verifyWebhookSignature, hs, hto, tsToString, safeCompare_self]
    simp [handleWebhookEvent, hv]

/-- Witness for C3 at now = 1000: timestamp 699 (301 seconds old) is
rejected as stale, 701 (299 seconds old) is accepted with a valid
signature, and the boundary 700 (exactly 300 seconds old) is accepted. -/
theorem replay_window_boundary_witness :
    (handleWebhookEvent hmacDemo stringifyDemo (some secretDemo) emptyMap
        payloadDemo sigDemoBad (some 699) 1000 recvDemo =
      (HandleOutcome.unauthorized, emptyMap, [staleWarn])) ∧
    ((handleWebhookEvent hmacDemo stringifyDemo (some secretDemo) emptyMap
        payloadDemo sigDemo701 (some 701) 1000 recvDemo).1 =
      HandleOutcome.accepted
        { received := true, eventId := payloadDemo.id,
          eventType := payloadDemo.type,
          intentAddress := intentAddressOf payloadDemo }) ∧
    ((handleWebhookEvent hmacDemo stringifyDemo (some secretDemo) emptyMap
        payloadDemo sigDemo700 (some 700) 1000 recvDemo).1 =
      HandleOutcome.accepted
        { received := true, eventId := payloadDemo.id,
          eventType := payloadDemo.type,
          intentAddress := intentAddressOf payloadDemo }) :=
  ⟨(replay_window_boundary hmacDemo stringifyDemo secretDemo payloadDemo
      699 1000 emptyMap sigDemoBad recvDemo (by decide)).1 (by decide),
    (replay_window_boundary hmacDemo stringifyDemo secretDemo payloadDemo
      701 1000 emptyMap sigDemo701 recvDemo (by decide)).2 (by decide) (by decide),
    (replay_window_boundary hmacDemo stringifyDemo secretDemo payloadDemo
      700 1000 emptyMap sigDemo700 recvDemo (by decide)).2 (by decide) (by decide)⟩

/-- C6: when the secret is absent or empty, verification is skipped: the
verifier returns `true` for every signature and timestamp (stale ones
included), logging the warning on every such call; `handleWebhookEvent`
then accepts the delivery, surfaces the warning, and still appends the
event when a (truthy) correlation address is present. -/
theorem no_secret_bypass
    (hmac : String → String → String) (stringify : Payload → String)
    (secret : Option String) (m : EventMap) (payload : Payload)
    (sig : String) (ts : Option Int) (now : Int) (receivedAt : String)
    (hsec : secret = none ∨ secret = some "") :
    verifyWebhookSignature hmac stringify secret payload sig ts now
      = (true, [noSecretWarn]) ∧
    (handleWebhookEvent hmac stringify secret m payload sig ts now receivedAt).1 =
      HandleOutcome.accepted
        { received := true, eventId := payload.id,
          eventType := payload.type, intentAddress := intentAddressOf payload } ∧
    (handleWebhookEvent hmac stringify secret m payload sig ts now receivedAt).2.2
      = [noSecretWarn] ∧
    (∀ a : String, intentAddressOf payload = some a → a ≠ "" →
      getEvents (handleWebhookEvent hmac stringify secret m payload sig
          ts now receivedAt).2.1 a
        = getEvents m a ++ [mkEvent payload receivedAt]) := by
  have hv : verifyWebhookSignature hmac stringify secret payload sig ts now
      = (true, [noSecretWarn]) := by
    rcases hsec with h | h <;> subst h <;> simp [verifyWebhookSignature]
  refine ⟨hv, ?_, ?_, ?_⟩
  · simp [handleWebhookEvent, hv]
  · simp [handleWebhookEvent, hv]
  · intro a ha ha2
    simp [handleWebhookEvent, hv, ha, ha2, getEvents_mapSet_self]

/-- Witness for C6: without a secret, a garbage signature with a
timestamp a million seconds in the past is accepted, warned about, and
the event is recorded for `addrDemo`. -/
theorem no_secret_bypass_witness :
    verifyWebhookSignature hmacDemo stringifyDemo none payloadDemo
        sigDemoBad (some 0) 1000000 = (true, [noSecretWarn]) ∧
    (handleWebhookEvent hmacDemo stringifyDemo none emptyMap payloadDemo
        sigDemoBad (some 0) 1000000 recvDemo).1 =
      HandleOutcome.accepted
        { received := true, eventId := payloadDemo.id,
          eventType := payloadDemo.type,
          intentAddress := intentAddressOf payloadDemo } ∧
    (handleWebhookEvent hmacDemo stringifyDemo none emptyMap payloadDemo
        sigDemoBad (some 0) 1000000 recvDemo).2.2 = [noSecretWarn] ∧
    getEvents (handleWebhookEvent hmacDemo stringifyDemo none emptyMap
        payloadDemo sigDemoBad (some 0) 1000000 recvDemo).2.1 addrDemo
      = getEvents emptyMap addrDemo ++ [mkEvent payloadDemo recvDemo] := by
  have h := no_secret_bypass hmacDemo stringifyDemo none emptyMap payloadDemo
    sigDemoBad (some 0) 1000000 recvDemo (Or.inl rfl)
  exact ⟨h.1, h.2.1, h.2.2.1, h.2.2.2 addrDemo (by decide) (by decide)⟩

/-- C8: a delivery that passes verification but whose `payload.data`
carries no `intent_address` is accepted, the map is returned exactly
unchanged (no log touched, no key created), and the result surfaces the
uncorrelated state: `received = true` with `intentAddress = none`. -/
theorem uncorrelated_accepted_no_append
    (hmac : String → String → String) (stringify : Payload → String)
    (secret : Option String) (m : EventMap) (payload : Payload)
    (sig : String) (ts : Option Int) (now : Int) (receivedAt : String)
    (hv : (verifyWebhookSignature hmac stringify secret payload sig ts now).1 = true)
    (ha : intentAddressOf payload = none) :
    handleWebhookEvent hmac stringify secret m payload sig ts now receivedAt =
      (HandleOutcome.accepted
        { received := true, eventId := payload.id,
          eventType := payload.type, intentAddress := none },
        m,
        (verifyWebhookSignature hmac stringify secret payload sig ts now).2) := by
  simp [handleWebhookEvent, hv, ha]

/-- Witness for C8: an authentic delivery (valid signature, fresh
timestamp, secret configured) without an `intent_address` leaves the map
untouched and returns the uncorrelated result. -/
theorem uncorrelated_accepted_no_append_witness :
    handleWebhookEvent hmacDemo stringifyDemo (some secretDemo) emptyMap
        payloadNoAddr sigNoAddr700 (some 700) 1000 recvDemo =
      (HandleOutcome.accepted
        { received := true, eventId := payloadNoAddr.id,
          eventType := payloadNoAddr.type, intentAddress := none },
        emptyMap,
        (verifyWebhookSignature hmacDemo stringifyDemo (some secretDemo)
          payloadNoAddr sigNoAddr700 (some 700) 1000).2) :=
  uncorrelated_accepted_no_append hmacDemo stringifyDemo (some secretDemo)
    emptyMap payloadNoAddr sigNoAddr700 (some 700) 1000 recvDemo
    (by decide) (by decide)

/-- C9: recording does not de-duplicate by event id: two calls that both
pass verification and carry the same payload — in particular the same
event id, as in a vendor redelivery — append two entries for that
address, one per call. -/
theorem redelivery_appends_twice
    (hmac : String → String → String) (stringify : Payload → String)
    (secret : Option String) (m : EventMap) (payload : Payload)
    (sig1 sig2 : String) (ts1 ts2 : Option Int) (now1 now2 : Int)
    (r1 r2 a : String)
    (hv1 : (verifyWebhookSignature hmac stringify secret payload sig1 ts1 now1).1 = true)
    (hv2 : (verifyWebhookSignature hmac stringify secret payload sig2 ts2 now2).1 = true)
    (ha : intentAddressOf payload = some a) (ha2 : a ≠ "") :
    getEvents (handleWebhookEvent hmac stringify secret
        (handleWebhookEvent hmac stringify secret m payload sig1 ts1 now1 r1).2.1
        payload sig2 ts2 now2 r2).2.1 a
      = getEvents m a ++ [mkEvent payload r1, mkEvent payload r2] := by
  simp [handleWebhookEvent, hv1, hv2, ha, ha2, getEvents_mapSet_self,
    List.append_assoc]

/-- Witness for C9: delivering the same signed event twice (development
bypass mode, so both deliveries verify) yields two log entries. -/
theorem redelivery_appends_twice_witness :
    getEvents (handleWebhookEvent hmacDemo stringifyDemo none
        (handleWebhookEvent hmacDemo stringifyDemo none emptyMap payloadDemo
          sigDemoBad (some 700) 1000 recvDemo).2.1
        payloadDemo sigDemoBad (some 700) 1000 recvDemo2).2.1 addrDemo
      = getEvents emptyMap addrDemo
          ++ [mkEvent payloadDemo recvDemo, mkEvent payloadDemo recvDemo2] :=
  redelivery_appends_twice hmacDemo stringifyDemo none emptyMap payloadDemo
    sigDemoBad sigDemoBad (some 700) (some 700) 1000 1000 recvDemo recvDemo2
    addrDemo (by decide) (by decide) (by decide) (by decide)

/-- C10: a `handleWebhookEvent` call can modify at most the log entry
keyed by the delivery's own `data.intent_address` — every key other than
that address reads exactly as before — and `createTransfer`'s storage
step can modify at most the entry keyed by the new intent's address. -/
theorem frame_other_keys_unchanged
    (hmac : String → String → String) (stringify : Payload → String)
    (secret : Option String) (m : EventMap) (payload : Payload)
    (sig : String) (ts : Option Int) (now : Int) (receivedAt : String)
    (k a : String)
    (hk : intentAddressOf payload ≠ some k) (hka : k ≠ a) :
    (handleWebhookEvent hmac stringify secret m payload sig ts now
      receivedAt).2.1 k = m k ∧
    recordTransferCreated m a k = m k := by
  refine ⟨?_, mapSet_other m a [] k hka⟩
  by_cases hv : (verifyWebhookSignature hmac stringify secret payload sig ts now).1 = true
  · rcases haddr : intentAddressOf payload with _ | a0
    · simp [handleWebhookEvent, hv, haddr]
    · have hk0 : k ≠ a0 := by
        intro h
        exact hk (h ▸ haddr)
      by_cases h0 : a0 = ""
      · simp [handleWebhookEvent, hv, haddr, h0]
      · simp [handleWebhookEvent, hv, haddr, h0, mapSet_other m a0 _ k hk0]
  · simp only [Bool.not_eq_true] at hv
    simp [handleWebhookEvent, hv]

/-- Witness for C10: an accepted delivery for `addrDemo` leaves the log
under `otherAddrDemo` untouched, as does creating a transfer for
`addrDemo`. -/
theorem frame_other_keys_unchanged_witness :
    (handleWebhookEvent hmacDemo stringifyDemo (some secretDemo) emptyMap
      payloadDemo sigDemo700 (some 700) 1000 recvDemo).2.1 otherAddrDemo
      = emptyMap otherAddrDemo ∧
    recordTransferCreated emptyMap addrDemo otherAddrDemo
      = emptyMap otherAddrDemo :=
  frame_other_keys_unchanged hmacDemo stringifyDemo (some secretDemo)
    emptyMap payloadDemo sigDemo700 (some 700) 1000 recvDemo otherAddrDemo
    addrDemo (by decide) (by decide)

/-- C2 (code bug): `createTransfer` runs
`webhookEvents.set(intent.intent_address, [])` unconditionally, so
re-initializing an address that already has a log destroys it.  Concrete
scenario: after a first `createTransfer` for `addrDemo` and a verified
webhook appended to its log, a second `createTransfer` yielding the same
address leaves the log empty — the recorded event is erased, contradicting
the create-only-if-absent requirement. -/
theorem recreate_transfer_erases_events :
    getEvents overwriteStep2 addrDemo = [mkEvent payloadDemo recvDemo] ∧
    getEvents overwriteStep3 addrDemo = [] := by
  constructor
  · decide
  · decide

/-- C5 (code bug): a timestamp header that `parseInt` cannot parse yields
`NaN`, and `Math.abs(now - NaN) > 300` is `false`, so the freshness
guard silently passes instead of rejecting; the delivery then reaches the
signature check against the HMAC of `NaN.<payload>`, and a delivery
bearing exactly that signature is accepted and its event appended — not
rejected as `InvalidTimestamp`.  The same holds when the header is
missing altogether. -/
theorem unparseable_timestamp_not_rejected :
    parseIntJS tsHeaderGarbage = none ∧
    (handleWebhook hmacDemo stringifyDemo (some secretDemo) emptyMap
        payloadDemo sigDemoNaN (some tsHeaderGarbage) 1000 recvDemo).1 =
      HandleOutcome.accepted
        { received := true, eventId := payloadDemo.id,
          eventType := payloadDemo.type, intentAddress := some addrDemo } ∧
    getEvents (handleWebhook hmacDemo stringifyDemo (some secretDemo) emptyMap
        payloadDemo sigDemoNaN (some tsHeaderGarbage) 1000 recvDemo).2.1 addrDemo
      = [mkEvent payloadDemo recvDemo] ∧
    (handleWebhook hmacDemo stringifyDemo (some secretDemo) emptyMap
        payloadDemo sigDemoNaN none 1000 recvDemo).1 =
      HandleOutcome.accepted
        { received := true, eventId := payloadDemo.id,
          eventType := payloadDemo.type, intentAddress := some addrDemo } := by
  refine ⟨by decide, by decide, by decide, by decide⟩

end Chainrails
